import Mathlib

/-!
Shallow embedding of the Pass-Gen password generator (src/scripts/main.ts).

JavaScript numbers are modelled as real numbers (exact arithmetic); the
cryptographically secure random words produced by crypto.getRandomValues
are modelled as an explicit input function supplying one natural number
per position, with the code taking it modulo the pool size exactly as the
source does.
-/

namespace PassGen

/-- `class CharSet { constructor(characters) ... getAll() }`:
a character class is a wrapper around its ordered character list. -/
structure CharSet where
  characters : List Char
deriving DecidableEq

/-- `getAll()` returns the stored character list. -/
def CharSet.getAll (s : CharSet) : List Char := s.characters

/-- `class LowerCaseSet`: the 26 lowercase letters. -/
def lowerCaseSet : CharSet := ⟨"abcdefghijklmnopqrstuvwxyz".toList⟩

/-- `class UpperCaseSet`: the 26 uppercase letters. -/
def upperCaseSet : CharSet := ⟨"ABCDEFGHIJKLMNOPQRSTUVWXYZ".toList⟩

/-- `class NumberSet`: the 10 digits. -/
def numberSet : CharSet := ⟨"0123456789".toList⟩

/-- `class SymbolSet`: the 32 symbol characters of the source's template
literal (braces, apostrophe, double quote and backtick written with hex
escapes). -/
def symbolSet : CharSet := ⟨"!@#$%^&*()-_=+[]\x7b\x7d;:\x27\x22,.<>/?\\|~\x60".toList⟩

/-- `this.charSets.flatMap((set) => set.getAll())`: the generation pool,
the concatenation of the enabled classes' character lists in order. -/
def charPool (charSets : List CharSet) : List Char :=
  charSets.flatMap CharSet.getAll

/-- `PasswordGenerator.generate(length)`: if the pool is empty return "";
otherwise take, for each position `i < length`, the character at index
`randomBytes i % pool.length`, and join the results. -/
def generate (charSets : List CharSet) (length : ℕ) (randomBytes : ℕ → ℕ) : String :=
  let pool := charPool charSets
  if h : pool.length = 0 then "" else
    String.mk ((List.range length).map (fun i =>
      pool.get ⟨randomBytes i % pool.length, Nat.mod_lt _ (Nat.pos_of_ne_zero h)⟩))

example : charPool [lowerCaseSet, numberSet] = lowerCaseSet.getAll ++ numberSet.getAll := by decide
example : (symbolSet.getAll).length = 32 := by decide
example : generate [numberSet] 3 (fun i => i) = "012" := by decide
example : generate [] 5 (fun i => i) = "" := by decide
example : generate [numberSet] 0 (fun i => i) = "" := by decide

lemma charPool_cons (s : CharSet) (rest : List CharSet) :
    charPool (s :: rest) = s.getAll ++ charPool rest := by
  simp [charPool]

lemma charPool_length_sum (charSets : List CharSet) :
    (charPool charSets).length = (charSets.map (fun s => s.getAll.length)).sum := by
  induction charSets with
  | nil => rfl
  | cons s rest ih => simp [charPool_cons, ih]

/-- C1: with the random words as an input parameter, `generate` on a
non-empty list of enabled classes (each one of the four registered
classes) returns a string of exactly `length` characters, each a
character of the pool; the pool concatenates the enabled classes in
class order then within-class order, and cross-class duplicates are
preserved (the pool length is the sum of the class lengths, with no
deduplication). -/
theorem generate_spec (charSets : List CharSet) (length : ℕ) (randomBytes : ℕ → ℕ)
    (hne : charSets ≠ [])
    (hcls : ∀ s ∈ charSets, s ∈ [lowerCaseSet, upperCaseSet, numberSet, symbolSet]) :
    (generate charSets length randomBytes).length = length ∧
    (∀ c ∈ (generate charSets length randomBytes).data, c ∈ charPool charSets) ∧
    charPool [lowerCaseSet, upperCaseSet, numberSet, symbolSet] =
      lowerCaseSet.getAll ++ upperCaseSet.getAll ++ numberSet.getAll ++ symbolSet.getAll ∧
    (charPool charSets).length = (charSets.map (fun s => s.getAll.length)).sum := by
  have hpool : (charPool charSets).length ≠ 0 := by
    obtain ⟨s, rest, rfl⟩ := List.exists_cons_of_ne_nil hne
    have hs : s ∈ [lowerCaseSet, upperCaseSet, numberSet, symbolSet] :=
      hcls s (List.mem_cons_self _ _)
    have hlen : s.getAll.length ≠ 0 := by
      simp only [List.mem_cons, List.not_mem_nil, or_false] at hs
      rcases hs with rfl | rfl | rfl | rfl <;> decide
    rw [charPool_cons, List.length_append]
    omega
  refine ⟨?_, ?_, by decide, charPool_length_sum charSets⟩
  · simp only [generate, dif_neg hpool]
    show ((List.range length).map _).length = length
    simp
  · intro c hc
    simp only [generate, dif_neg hpool] at hc
    have hc' : c ∈ (List.range length).map (fun i =>
        (charPool charSets).get ⟨randomBytes i % (charPool charSets).length,
          Nat.mod_lt _ (Nat.pos_of_ne_zero hpool)⟩) := hc
    obtain ⟨i, _, rfl⟩ := List.mem_map.mp hc'
    exact List.get_mem _ _ _

/-- C1 witness: instantiate `generate_spec` at one enabled class,
length 2 and the identity random source. -/
theorem generate_spec_witness :
    (generate [numberSet] 2 (fun i => i)).length = 2 ∧
    (∀ c ∈ (generate [numberSet] 2 (fun i => i)).data, c ∈ charPool [numberSet]) ∧
    charPool [lowerCaseSet, upperCaseSet, numberSet, symbolSet] =
      lowerCaseSet.getAll ++ upperCaseSet.getAll ++ numberSet.getAll ++ symbolSet.getAll ∧
    (charPool [numberSet]).length = ([numberSet].map (fun s => s.getAll.length)).sum :=
  generate_spec [numberSet] 2 (fun i => i) (by decide) (by decide)

/-- C2: `generate` with zero enabled classes (empty pool) returns the
empty string for every length, and `generate` with length 0 returns the
empty string for every class list. -/
theorem generate_degenerate (charSets : List CharSet) (length : ℕ) (randomBytes : ℕ → ℕ) :
    generate [] length randomBytes = "" ∧ generate charSets 0 randomBytes = "" := by
  constructor
  · simp [generate, charPool]
  · by_cases h : (charPool charSets).length = 0
    · simp [generate, h]
    · simp only [generate, dif_neg h]
      rfl

/-- The character test of the regular expression `/[a-z]/` at one character. -/
def charLower (c : Char) : Bool := 'a' ≤ c && c ≤ 'z'

/-- The character test of the regular expression `/[A-Z]/` at one character. -/
def charUpper (c : Char) : Bool := 'A' ≤ c && c ≤ 'Z'

/-- The character test of the regular expression `/[0-9]/` at one character. -/
def charDigit (c : Char) : Bool := '0' ≤ c && c ≤ '9'

/-- The character test of the regular expression `/[^a-zA-Z0-9]/` at one
character: the complement of the three classes above. -/
def charOther (c : Char) : Bool := !(charLower c || charUpper c || charDigit c)

/-- The `pool` accumulation of `PasswordStatsCalculator.calculate`:
`/[a-z]/.test` on a string holds iff some character passes the test, so
each regex test is `List.any` of the character test. -/
def poolOf (symbolsLength : ℕ) (password : String) : ℕ :=
  (if password.data.any charLower then 26 else 0) +
  (if password.data.any charUpper then 26 else 0) +
  (if password.data.any charDigit then 10 else 0) +
  (if password.data.any charOther then symbolsLength else 0)

/-- The value pair returned by `PasswordStatsCalculator.calculate`. -/
structure Stats where
  entropyBits : ℝ
  crackTimeSeconds : ℝ

/-- `PasswordStatsCalculator.calculate(password)`:
`entropyBits = Math.log2(Math.pow(pool, password.length))` and
`crackTimeSeconds = Math.pow(2, entropyBits) / 1e12`, with JavaScript
numbers modelled as real numbers. -/
noncomputable def calculate (symbolsLength : ℕ) (password : String) : Stats :=
  let pool := poolOf symbolsLength password
  let entropyBits : ℝ := Real.logb 2 ((pool : ℝ) ^ password.length)
  let guessesPerSecond : ℝ := 1e12
  { entropyBits := entropyBits
    crackTimeSeconds := (2 : ℝ) ^ entropyBits / guessesPerSecond }

/-- The calculator instance of the program's initialization:
`new PasswordStatsCalculator(new SymbolSet().getAll().length)`. -/
noncomputable def statsCalculate (password : String) : Stats :=
  calculate symbolSet.getAll.length password

lemma symbolsLength_eq : symbolSet.getAll.length = 32 := by decide

lemma entropyBits_empty : (statsCalculate "").entropyBits = 0 := by
  simp [statsCalculate, calculate, poolOf]

lemma crackTime_empty : (statsCalculate "").crackTimeSeconds = 1e-12 := by
  simp only [statsCalculate, calculate]
  rw [show poolOf symbolSet.getAll.length "" = 0 from by decide]
  norm_num [Real.rpow_natCast]

/-- C3 counterexample: the claim that `calculate("")` yields
`crackTimeSeconds = 0` is false; the code computes
`2^0 / 1e12 = 1e-12 ≠ 0`. -/
theorem calculate_empty_claim_false :
    ¬((statsCalculate "").entropyBits = 0 ∧ (statsCalculate "").crackTimeSeconds = 0) := by
  intro h
  rw [crackTime_empty] at h
  norm_num at h

/-- C3 (amended): `calculate("")` yields `entropyBits = 0` and
`crackTimeSeconds = 2^0 / 1e12 = 1e-12`. -/
theorem calculate_empty :
    (statsCalculate "").entropyBits = 0 ∧ (statsCalculate "").crackTimeSeconds = 1e-12 :=
  ⟨entropyBits_empty, crackTime_empty⟩

/-- C4: for every password, the reconstructed alphabet size is the sum of
the four contains-class bonuses (with the symbol bonus equal to 32, the
symbol set's size) and `entropyBits = passwordLength * log2(pool)`;
in particular `calculate("a")` has pool 26 and entropy `log2 26`, and
`calculate("aA1!")` has pool 94 and entropy `4 * log2 94`. -/
theorem calculate_entropy_formula :
    (∀ p : String, (statsCalculate p).entropyBits =
      p.length * Real.logb 2 (poolOf 32 p)) ∧
    symbolSet.getAll.length = 32 ∧
    poolOf 32 "a" = 26 ∧ (statsCalculate "a").entropyBits = Real.logb 2 26 ∧
    poolOf 32 "aA1!" = 94 ∧ (statsCalculate "aA1!").entropyBits = 4 * Real.logb 2 94 := by
  refine ⟨?_, symbolsLength_eq, by decide, ?_, by decide, ?_⟩
  · intro p
    simp only [statsCalculate, calculate, symbolsLength_eq]
    exact Real.logb_pow _ _ _
  · simp only [statsCalculate, calculate]
    rw [show poolOf symbolSet.getAll.length "a" = 26 from by decide,
      show "a".length = 1 from rfl]
    norm_num
  · simp only [statsCalculate, calculate]
    rw [show poolOf symbolSet.getAll.length "aA1!" = 94 from by decide,
      show "aA1!".length = 4 from rfl]
    rw [Real.logb_pow]
    norm_num

/-- C5: for every password, `crackTimeSeconds` equals
`2 ^ entropyBits / 1e12`. -/
theorem calculate_crackTime_formula (p : String) :
    (statsCalculate p).crackTimeSeconds =
      (2 : ℝ) ^ (statsCalculate p).entropyBits / 1e12 := rfl

lemma ten_le_poolOf (p : String) (hp : p ≠ "") :
    10 ≤ poolOf symbolSet.getAll.length p := by
  have hdata : p.data ≠ [] := by
    intro h
    apply hp
    cases p
    simp_all
  obtain ⟨c, cs, hcons⟩ := List.exists_cons_of_ne_nil hdata
  have hmem : c ∈ p.data := by rw [hcons]; exact List.mem_cons_self _ _
  have hone : p.data.any charLower = true ∨ p.data.any charUpper = true ∨
      p.data.any charDigit = true ∨ p.data.any charOther = true := by
    by_cases h1 : charLower c
    · exact Or.inl (List.any_eq_true.mpr ⟨c, hmem, h1⟩)
    by_cases h2 : charUpper c
    · exact Or.inr (Or.inl (List.any_eq_true.mpr ⟨c, hmem, h2⟩))
    by_cases h3 : charDigit c
    · exact Or.inr (Or.inr (Or.inl (List.any_eq_true.mpr ⟨c, hmem, h3⟩)))
    refine Or.inr (Or.inr (Or.inr (List.any_eq_true.mpr ⟨c, hmem, ?_⟩)))
    simp [charOther, h1, h2, h3]
  rcases hone with h | h | h | h <;>
    simp only [poolOf, h, if_true, symbolsLength_eq] <;>
    split_ifs <;> omega

/-- C8: for every password, `entropyBits` is a non-negative real number
(the real-number model of the JavaScript arithmetic: no NaN or Infinity
arises, and the value is never negative). -/
theorem calculate_entropy_nonneg (p : String) : 0 ≤ (statsCalculate p).entropyBits := by
  by_cases hp : p = ""
  · rw [hp, entropyBits_empty]
  · have hpool := ten_le_poolOf p hp
    simp only [statsCalculate, calculate]
    apply Real.logb_nonneg (by norm_num)
    have hnat : 1 ≤ poolOf symbolSet.getAll.length p := by omega
    have h1 : (1 : ℝ) ≤ (poolOf symbolSet.getAll.length p : ℝ) := by exact_mod_cast hnat
    exact one_le_pow₀ h1

/-- C9: for every non-empty password, the reconstructed alphabet size is
at least 10 (every character passes at least one of the four class tests)
and `entropyBits` is strictly positive. -/
theorem calculate_nonempty_pool_pos (p : String) (hp : p ≠ "") :
    10 ≤ poolOf symbolSet.getAll.length p ∧ 0 < (statsCalculate p).entropyBits := by
  have hpool := ten_le_poolOf p hp
  refine ⟨hpool, ?_⟩
  simp only [statsCalculate, calculate]
  apply Real.logb_pos (by norm_num)
  have hlen : p.length ≠ 0 := by
    intro h
    apply hp
    cases p
    simp_all [String.length]
  have h1 : (1 : ℝ) < (poolOf symbolSet.getAll.length p : ℝ) := by
    exact_mod_cast by omega
  calc (1 : ℝ) < (poolOf symbolSet.getAll.length p : ℝ) := h1
    _ ≤ (poolOf symbolSet.getAll.length p : ℝ) ^ p.length := le_self_pow₀ h1.le hlen

/-- C9 witness: the password "a" is non-empty, its pool is at least 10
and its entropy is positive. -/
theorem calculate_nonempty_pool_pos_witness :
    "a" ≠ "" ∧ (10 ≤ poolOf symbolSet.getAll.length "a" ∧
      0 < (statsCalculate "a").entropyBits) :=
  ⟨by decide, calculate_nonempty_pool_pos "a" (by decide)⟩

/-- One entry of the `colorCode` table: `{ id, type, color }`. -/
structure ColorEntry where
  id : ℕ
  type : String
  color : String
deriving DecidableEq

/-- The `colorCode` table of the program's initialization. -/
def colorCode : List ColorEntry :=
  [⟨0, "Very Weak", "#A10702"⟩,
   ⟨1, "Weak", "#F3A712"⟩,
   ⟨2, "Reasonable", "#8CD867"⟩,
   ⟨3, "Strong", "#04E762"⟩,
   ⟨4, "Very Strong", "#0C7489"⟩]

/-- `PasswordStrength.determine(entropyBits)`: the strict less-than
threshold cascade. -/
noncomputable def determine (entropyBits : ℝ) : ℕ :=
  if entropyBits < 28 then 0
  else if entropyBits < 36 then 1
  else if entropyBits < 60 then 2
  else if entropyBits < 128 then 3
  else 4

/-- `PasswordStrength.getColorAndText(entropyBits)`:
`this.colorCode[this.determine(entropyBits)]` (the index is always in
range, so list indexing with a default is exact). -/
noncomputable def getColorAndText (entropyBits : ℝ) : ColorEntry :=
  colorCode.getD (determine entropyBits) ⟨0, "", ""⟩

lemma determine_lt28 {e : ℝ} (h : e < 28) : determine e = 0 := by
  rw [determine, if_pos h]

lemma determine_28_36 {e : ℝ} (h1 : 28 ≤ e) (h2 : e < 36) : determine e = 1 := by
  rw [determine, if_neg (not_lt.mpr h1), if_pos h2]

lemma determine_36_60 {e : ℝ} (h1 : 36 ≤ e) (h2 : e < 60) : determine e = 2 := by
  rw [determine, if_neg (not_lt.mpr (by linarith)), if_neg (not_lt.mpr h1), if_pos h2]

lemma determine_60_128 {e : ℝ} (h1 : 60 ≤ e) (h2 : e < 128) : determine e = 3 := by
  rw [determine, if_neg (not_lt.mpr (by linarith)), if_neg (not_lt.mpr (by linarith)),
    if_neg (not_lt.mpr h1), if_pos h2]

lemma determine_ge128 {e : ℝ} (h1 : 128 ≤ e) : determine e = 4 := by
  rw [determine, if_neg (not_lt.mpr (by linarith)), if_neg (not_lt.mpr (by linarith)),
    if_neg (not_lt.mpr (by linarith)), if_neg (not_lt.mpr h1)]

/-- C7: `determine` follows the strict less-than threshold cascade with
first match winning, `getColorAndText` returns the fixed table entry for
the resulting tier, and the spec's sample points evaluate as stated. -/
theorem strength_thresholds :
    (∀ e : ℝ, e < 28 → determine e = 0) ∧
    (∀ e : ℝ, 28 ≤ e → e < 36 → determine e = 1) ∧
    (∀ e : ℝ, 36 ≤ e → e < 60 → determine e = 2) ∧
    (∀ e : ℝ, 60 ≤ e → e < 128 → determine e = 3) ∧
    (∀ e : ℝ, 128 ≤ e → determine e = 4) ∧
    determine (27 : ℝ) = 0 ∧ determine (28 : ℝ) = 1 ∧
    determine (59.9 : ℝ) = 2 ∧ determine (128 : ℝ) = 4 ∧
    getColorAndText (27 : ℝ) = ⟨0, "Very Weak", "#A10702"⟩ ∧
    getColorAndText (28 : ℝ) = ⟨1, "Weak", "#F3A712"⟩ ∧
    getColorAndText (40 : ℝ) = ⟨2, "Reasonable", "#8CD867"⟩ ∧
    getColorAndText (100 : ℝ) = ⟨3, "Strong", "#04E762"⟩ ∧
    getColorAndText (128 : ℝ) = ⟨4, "Very Strong", "#0C7489"⟩ := by
  refine ⟨fun e h => determine_lt28 h, fun e h1 h2 => determine_28_36 h1 h2,
    fun e h1 h2 => determine_36_60 h1 h2, fun e h1 h2 => determine_60_128 h1 h2,
    fun e h1 => determine_ge128 h1,
    determine_lt28 (by norm_num), determine_28_36 (by norm_num) (by norm_num),
    determine_36_60 (by norm_num) (by norm_num), determine_ge128 (by norm_num),
    ?_, ?_, ?_, ?_, ?_⟩
  · rw [getColorAndText, determine_lt28 (by norm_num)]; decide
  · rw [getColorAndText, determine_28_36 (by norm_num) (by norm_num)]; decide
  · rw [getColorAndText, determine_36_60 (by norm_num) (by norm_num)]; decide
  · rw [getColorAndText, determine_60_128 (by norm_num) (by norm_num)]; decide
  · rw [getColorAndText, determine_ge128 (by norm_num)]; decide

/-- C7 witness: the cascade branches applied at concrete entropies. -/
theorem strength_thresholds_witness :
    determine (10 : ℝ) = 0 ∧ determine (30 : ℝ) = 1 ∧ determine (40 : ℝ) = 2 ∧
    determine (100 : ℝ) = 3 ∧ determine (200 : ℝ) = 4 :=
  ⟨strength_thresholds.1 10 (by norm_num),
   strength_thresholds.2.1 30 (by norm_num) (by norm_num),
   strength_thresholds.2.2.1 40 (by norm_num) (by norm_num),
   strength_thresholds.2.2.2.1 100 (by norm_num) (by norm_num),
   strength_thresholds.2.2.2.2.1 200 (by norm_num)⟩

/-- C10: `determine` is monotone non-decreasing in the entropy, and its
result is always one of the tiers 0, 1, 2, 3, 4. -/
theorem determine_monotone :
    (∀ x y : ℝ, x ≤ y → determine x ≤ determine y) ∧
    (∀ x : ℝ, determine x ≤ 4) := by
  constructor
  · intro x y h
    unfold determine
    split_ifs <;> first | omega | linarith
  · intro x
    unfold determine
    split_ifs <;> omega

/-- C10 witness: monotonicity applied at the concrete pair (1, 2). -/
theorem determine_monotone_witness : determine (1 : ℝ) ≤ determine (2 : ℝ) :=
  determine_monotone.1 1 2 (by norm_num)

/-- Two-digit rendering of the fractional part: `05` for 5, `50` for 50. -/
def pad2 (n : ℕ) : String := if n < 10 then "0" ++ toString n else toString n

/-- `x.toFixed(2)` of JavaScript, modelled on the exact reals as rounding
half up to two decimal places and rendering with exactly two fractional
digits. -/
noncomputable def toFixed2 (x : ℝ) : String :=
  toString ((⌊x * 100 + 1 / 2⌋).toNat / 100) ++ "." ++ pad2 ((⌊x * 100 + 1 / 2⌋).toNat % 100)

/-- The magnitude labels `["", "Thousand", "Million", "Billion", "Trillion"]`. -/
def units : List String := ["", "Thousand", "Million", "Billion", "Trillion"]

/-- The `while (years >= 1000 && idx < units.length - 1)` loop of
`CrackTimeFormatter.format`: divide by 1000 and advance the unit index. -/
noncomputable def yearsLoop (years : ℝ) (idx : ℕ) : ℝ × ℕ :=
  if h : 1000 ≤ years ∧ idx < 4 then yearsLoop (years / 1000) (idx + 1) else (years, idx)
termination_by 4 - idx
decreasing_by
  have := h.2
  omega

lemma yearsLoop_step (y : ℝ) (idx : ℕ) (h1 : 1000 ≤ y) (h2 : idx < 4) :
    yearsLoop y idx = yearsLoop (y / 1000) (idx + 1) := by
  rw [yearsLoop, dif_pos ⟨h1, h2⟩]

lemma yearsLoop_halt (y : ℝ) (idx : ℕ) (h : ¬(1000 ≤ y ∧ idx < 4)) :
    yearsLoop y idx = (y, idx) := by
  rw [yearsLoop, dif_neg h]

/-- `CrackTimeFormatter.format(seconds)`: the strict less-than threshold
cascade with `minute = 60`, `hour = 3600`, `day = 86400`,
`year = 31557600`, ending in the scaled-years branch whose template
`(years.toFixed(2)) (units[idx]) Years` leaves a double space when the
unit label is empty. -/
noncomputable def format (seconds : ℝ) : String :=
  if seconds < 60 then toFixed2 seconds ++ " Seconds"
  else if seconds < 3600 then toFixed2 (seconds / 60) ++ " Minutes"
  else if seconds < 86400 then toFixed2 (seconds / 3600) ++ " Hours"
  else if seconds < 31557600 then toFixed2 (seconds / 86400) ++ " Days"
  else
    toFixed2 (yearsLoop (seconds / 31557600) 0).1 ++ " " ++
      units.getD (yearsLoop (seconds / 31557600) 0).2 "" ++ " Years"

lemma toFixed2_eval (x : ℝ) (n : ℤ) (h : ⌊x * 100 + 1 / 2⌋ = n) :
    toFixed2 x = toString (n.toNat / 100) ++ "." ++ pad2 (n.toNat % 100) := by
  rw [toFixed2, h]

/-- C6: `CrackTimeFormatter.format` obeys the strict less-than threshold
cascade (first match wins) through Seconds, Minutes, Hours and Days; the
years branch scales through the magnitude labels and halts once the
index reaches "Trillion" even if the value is still at least 1000; the
empty label yields a double space before "Years"; and the spec's sample
inputs format as stated, two decimal places each. -/
theorem format_spec :
    (∀ s : ℝ, s < 60 → format s = toFixed2 s ++ " Seconds") ∧
    (∀ s : ℝ, 60 ≤ s → s < 3600 → format s = toFixed2 (s / 60) ++ " Minutes") ∧
    (∀ s : ℝ, 3600 ≤ s → s < 86400 → format s = toFixed2 (s / 3600) ++ " Hours") ∧
    (∀ s : ℝ, 86400 ≤ s → s < 31557600 → format s = toFixed2 (s / 86400) ++ " Days") ∧
    (∀ s : ℝ, 31557600 ≤ s → format s =
      toFixed2 (yearsLoop (s / 31557600) 0).1 ++ " " ++
        units.getD (yearsLoop (s / 31557600) 0).2 "" ++ " Years") ∧
    (∀ y : ℝ, yearsLoop y 4 = (y, 4)) ∧
    format (30 : ℝ) = "30.00 Seconds" ∧
    format (90 : ℝ) = "1.50 Minutes" ∧
    format (7200 : ℝ) = "2.00 Hours" ∧
    format (172800 : ℝ) = "2.00 Days" ∧
    format (31557600 : ℝ) = "1.00  Years" ∧
    format (31557600000 : ℝ) = "1.00 Thousand Years" ∧
    format (0 : ℝ) = "0.00 Seconds" ∧
    format (31557600 * 10 ^ 18 : ℝ) = "1000000.00 Trillion Years" := by
  have hsec : ∀ s : ℝ, s < 60 → format s = toFixed2 s ++ " Seconds" := by
    intro s h
    rw [format, if_pos h]
  have hmin : ∀ s : ℝ, 60 ≤ s → s < 3600 → format s = toFixed2 (s / 60) ++ " Minutes" := by
    intro s h1 h2
    rw [format, if_neg (not_lt.mpr h1), if_pos h2]
  have hhour : ∀ s : ℝ, 3600 ≤ s → s < 86400 → format s = toFixed2 (s / 3600) ++ " Hours" := by
    intro s h1 h2
    rw [format, if_neg (not_lt.mpr (by linarith)), if_neg (not_lt.mpr h1), if_pos h2]
  have hday : ∀ s : ℝ, 86400 ≤ s → s < 31557600 → format s = toFixed2 (s / 86400) ++ " Days" := by
    intro s h1 h2
    rw [format, if_neg (not_lt.mpr (by linarith)), if_neg (not_lt.mpr (by linarith)),
      if_neg (not_lt.mpr h1), if_pos h2]
  have hyear : ∀ s : ℝ, 31557600 ≤ s → format s =
      toFixed2 (yearsLoop (s / 31557600) 0).1 ++ " " ++
        units.getD (yearsLoop (s / 31557600) 0).2 "" ++ " Years" := by
    intro s h1
    rw [format, if_neg (not_lt.mpr (by linarith)), if_neg (not_lt.mpr (by linarith)),
      if_neg (not_lt.mpr (by linarith)), if_neg (not_lt.mpr h1)]
  have hhalt : ∀ y : ℝ, yearsLoop y 4 = (y, 4) := by
    intro y
    exact yearsLoop_halt y 4 (by simp)
  refine ⟨hsec, hmin, hhour, hday, hyear, hhalt, ?_, ?_, ?_, ?_, ?_, ?_, ?_, ?_⟩
  · rw [hsec 30 (by norm_num),
      toFixed2_eval 30 3000 (by rw [Int.floor_eq_iff]; norm_num)]
    decide
  · rw [hmin 90 (by norm_num) (by norm_num),
      toFixed2_eval _ 150 (by rw [Int.floor_eq_iff]; norm_num)]
    decide
  · rw [hhour 7200 (by norm_num) (by norm_num),
      toFixed2_eval _ 200 (by rw [Int.floor_eq_iff]; norm_num)]
    decide
  · rw [hday 172800 (by norm_num) (by norm_num),
      toFixed2_eval _ 200 (by rw [Int.floor_eq_iff]; norm_num)]
    decide
  · rw [hyear 31557600 (by norm_num),
      show (31557600 : ℝ) / 31557600 = 1 from by norm_num,
      yearsLoop_halt 1 0 (by norm_num),
      toFixed2_eval 1 100 (by rw [Int.floor_eq_iff]; norm_num)]
    decide
  · rw [hyear 31557600000 (by norm_num),
      show (31557600000 : ℝ) / 31557600 = 1000 from by norm_num,
      yearsLoop_step 1000 0 (by norm_num) (by norm_num),
      show (1000 : ℝ) / 1000 = 1 from by norm_num,
      yearsLoop_halt 1 1 (by norm_num),
      toFixed2_eval 1 100 (by rw [Int.floor_eq_iff]; norm_num)]
    decide
  · rw [hsec 0 (by norm_num),
      toFixed2_eval 0 0 (by rw [Int.floor_eq_iff]; norm_num)]
    decide
  · rw [hyear (31557600 * 10 ^ 18) (by norm_num),
      show (31557600 * 10 ^ 18 : ℝ) / 31557600 = 10 ^ 18 from by norm_num,
      yearsLoop_step (10 ^ 18) 0 (by norm_num) (by norm_num),
      show (10 ^ 18 : ℝ) / 1000 = 10 ^ 15 from by norm_num,
      yearsLoop_step (10 ^ 15) 1 (by norm_num) (by norm_num),
      show (10 ^ 15 : ℝ) / 1000 = 10 ^ 12 from by norm_num,
      yearsLoop_step (10 ^ 12) 2 (by norm_num) (by norm_num),
      show (10 ^ 12 : ℝ) / 1000 = 10 ^ 9 from by norm_num,
      yearsLoop_step (10 ^ 9) 3 (by norm_num) (by norm_num),
      show (10 ^ 9 : ℝ) / 1000 = 10 ^ 6 from by norm_num,
      hhalt (10 ^ 6),
      toFixed2_eval (10 ^ 6) (10 ^ 8) (by rw [Int.floor_eq_iff]; norm_num)]
    decide

/-- C6 witness: each guarded branch statement of `format_spec` applied
at a concrete input. -/
theorem format_spec_witness :
    format (45 : ℝ) = toFixed2 45 ++ " Seconds" ∧
    format (120 : ℝ) = toFixed2 ((120 : ℝ) / 60) ++ " Minutes" ∧
    format (7000 : ℝ) = toFixed2 ((7000 : ℝ) / 3600) ++ " Hours" ∧
    format (100000 : ℝ) = toFixed2 ((100000 : ℝ) / 86400) ++ " Days" ∧
    format (40000000 : ℝ) =
      toFixed2 (yearsLoop ((40000000 : ℝ) / 31557600) 0).1 ++ " " ++
        units.getD (yearsLoop ((40000000 : ℝ) / 31557600) 0).2 "" ++ " Years" ∧
    yearsLoop (5 : ℝ) 4 = (5, 4) :=
  ⟨format_spec.1 45 (by norm_num),
   format_spec.2.1 120 (by norm_num) (by norm_num),
   format_spec.2.2.1 7000 (by norm_num) (by norm_num),
   format_spec.2.2.2.1 100000 (by norm_num) (by norm_num),
   format_spec.2.2.2.2.1 40000000 (by norm_num),
   format_spec.2.2.2.2.2.1 5⟩

end PassGen
